import Mathlib

/-!
# Name Bloom: session store, favorites coordinator and share-link resolver

A shallow embedding of the client logic in `frontend/src/App.js`,
`frontend/src/components/NameGenerator.js` and
`frontend/src/components/SharedFavorites.js`.

* React state is an explicit record; every handler is a function from the
  record before the call to the record after it.
* `localStorage` is a finite map read through `getItem`.
* A remote call is answered by a `Remote`, a record of one function per
  endpoint over a server state; a handler returns the component state, the
  server state and the trace of what it sent and logged.
* The platform functions `JSON.parse` and `JSON.stringify` are parameters of
  the definitions that call them; a thrown `SyntaxError` is the result `none`.
-/

namespace NameBloom

/-! ## JavaScript values -/

/-- JavaScript values that JSON can carry; numbers are restricted to integers. -/
inductive JSValue where
  | null
  | bool (b : Bool)
  | num (n : Int)
  | str (s : String)
  | arr (items : List JSValue)
  | obj (fields : List (String × JSValue))

/-- Truthiness of a value as tested by `if (v)`, `!v` and `v ? a : b`. -/
def JSValue.truthy : JSValue → Bool
  | .null => false
  | .bool b => b
  | .num n => n != 0
  | .str s => s != ""
  | .arr _ => true
  | .obj _ => true

/-- Truthiness of what `localStorage.getItem` returns: `null` and the empty
string are falsy, every other string is truthy. -/
def strTruthy : Option String → Bool
  | none => false
  | some s => s != ""

/-! ## `localStorage` -/

/-- The browser key-value store: `get k = none` is the `null` that `getItem`
returns for an absent key. -/
structure Storage where
  get : String → Option String

/-- The store with no key set. -/
def Storage.empty : Storage := ⟨fun _ => none⟩

/-- The call `localStorage.getItem(k)`. -/
def Storage.getItem (s : Storage) (k : String) : Option String := s.get k

/-- The call `localStorage.setItem(k, v)`. -/
def Storage.setItem (s : Storage) (k v : String) : Storage :=
  ⟨fun j => if j = k then some v else s.get j⟩

/-- The call `localStorage.removeItem(k)`. -/
def Storage.removeItem (s : Storage) (k : String) : Storage :=
  ⟨fun j => if j = k then none else s.get j⟩

/-! ## `AuthProvider` (App.js, lines 33-64) -/

/-- The state owned by `AuthProvider`: the two `useState` cells and the
`localStorage` it writes through to. -/
structure AuthProvider where
  localStorage : Storage
  user : JSValue
  loading : Bool

/-- The component as first rendered over a given storage:
`useState(null)` and `useState(true)`. -/
def AuthProvider.mount (storage : Storage) : AuthProvider :=
  ⟨storage, .null, true⟩

/-- Result of running an effect body: the state it left and whether an
exception escaped it. -/
structure EffectResult where
  state : AuthProvider
  thrown : Option String

/-- The restore effect (App.js, lines 37-45). `JSON_parse` is the platform
function, `none` standing for a thrown `SyntaxError`; when it throws neither
`setUser` nor `setLoading(false)` is reached. -/
def AuthProvider.restore (JSON_parse : String → Option JSValue)
    (a : AuthProvider) : EffectResult :=
  let token := a.localStorage.getItem "auth_token"
  let userData := a.localStorage.getItem "user_data"
  if strTruthy token && strTruthy userData then
    match JSON_parse (userData.getD "") with
    | some parsed => ⟨{ a with user := parsed, loading := false }, none⟩
    | none => ⟨a, some "SyntaxError"⟩
  else
    ⟨{ a with loading := false }, none⟩

/-- The function `login` (App.js, lines 47-51). -/
def AuthProvider.login (JSON_stringify : JSValue → String) (a : AuthProvider)
    (token : String) (userData : JSValue) : AuthProvider :=
  let s1 := a.localStorage.setItem "auth_token" token
  let s2 := s1.setItem "user_data" (JSON_stringify userData)
  { a with localStorage := s2, user := userData }

/-- The function `logout` (App.js, lines 53-57). -/
def AuthProvider.logout (a : AuthProvider) : AuthProvider :=
  let s1 := a.localStorage.removeItem "auth_token"
  let s2 := s1.removeItem "user_data"
  { a with localStorage := s2, user := .null }

/-- A call made on the session store; a profile is an object, given by its
fields. -/
inductive AuthCall where
  | login (token : String) (profile : List (String × JSValue))
  | logout

/-- One call applied to the session store. -/
def AuthProvider.step (JSON_stringify : JSValue → String) (a : AuthProvider) :
    AuthCall → AuthProvider
  | .login token profile => a.login JSON_stringify token (.obj profile)
  | .logout => a.logout

/-- A finite sequence of calls, applied left to right. -/
def AuthProvider.run (JSON_stringify : JSValue → String) (a : AuthProvider)
    (calls : List AuthCall) : AuthProvider :=
  calls.foldl (AuthProvider.step JSON_stringify) a

/-- A finite table of `JSON.parse`: the listed texts are JSON and parse to the
values shown; every other text is answered as a `SyntaxError`, which is what
the platform does for the malformed text `{bad`. It serves to evaluate the
definitions at concrete inputs only. -/
def jsonParseTable (text : String) : Option JSValue :=
  if text = "\x7b\"id\":\"u1\",\"email\":\"a@b.c\"\x7d" then
    some (.obj [("id", .str "u1"), ("email", .str "a@b.c")])
  else if text = "null" then some .null
  else none

/-- A finite table of `JSON.stringify`: the profile with id `u1` and email
`a@b.c` is written as its JSON text, every other value as `null`. It serves to
evaluate the definitions at concrete inputs only. -/
def jsonStringifyTable : JSValue → String
  | .obj [("id", .str "u1"), ("email", .str "a@b.c")] =>
      "\x7b\"id\":\"u1\",\"email\":\"a@b.c\"\x7d"
  | _ => "null"

/-! ## Remote calls -/

/-- A name as the remote service returns it. -/
structure Name where
  id : String
  name : String
  gender : String
  origin : String
  meaning : String
  popularity_score : Int
  deriving DecidableEq

/-- The filter configuration held in the `filters` state cell; `none` is the
JavaScript `null` of an unset gender or style. -/
structure Filters where
  gender : Option String
  count : Int
  style : Option String
  deriving DecidableEq

/-- The `response` of a failed request, when the server answered. -/
structure ErrorResponse where
  status : Nat
  detail : Option String
  deriving DecidableEq

/-- What `axios` rejects with: `response` is absent when no answer arrived. -/
structure AxiosError where
  response : Option ErrorResponse
  deriving DecidableEq

/-- The requests the client sends. -/
inductive Request where
  | getFavorites
  | postGenerate (body : Filters)
  | postAdd (nameId : String)
  | deleteRemove (nameId : String)
  | postShare
  | getShared (shareToken : String)
  | postAuth (endpoint email password : String)
  deriving DecidableEq

/-- What a handler does that is visible outside the component state. -/
inductive Effect where
  | request (r : Request)
  | consoleError (label : String)
  | navigate (path : String)
  deriving DecidableEq

/-- The remote service as the client sees it: one function per endpoint, from
the server state to the outcome of the call and the server state after it. -/
structure Remote (σ : Type) where
  getFavorites : σ → Except AxiosError (List Name) × σ
  postGenerate : σ → Filters → Except AxiosError (List Name) × σ
  postAdd : σ → String → Except AxiosError Unit × σ
  deleteRemove : σ → String → Except AxiosError Unit × σ
  postShare : σ → Except AxiosError String × σ
  getShared : σ → String → Except AxiosError (List Name) × σ

/-! ## `FilterPanel` and `NameGenerator` (NameGenerator.js) -/

/-- The `useState` cells of `NameGenerator` (lines 168-178). -/
structure NameGenerator where
  names : List Name
  favorites : List Name
  loading : Bool
  error : String
  filters : Filters
  shareUrl : String
  showShareModal : Bool
  deriving DecidableEq

/-- The cells as first rendered (lines 168-178). -/
def NameGenerator.mount : NameGenerator :=
  { names := [], favorites := [], loading := false, error := "",
    filters := { gender := none, count := 10, style := none },
    shareUrl := "", showShareModal := false }

/-- Outcome of a handler run to completion: the component state, the server
state and what was sent and logged, in order. -/
structure Run (S σ : Type) where
  state : S
  server : σ
  trace : List Effect

/-- The count `onChange` of `FilterPanel` (line 152):
`parseInt(e.target.value) || 10`, where `parsed` is what `parseInt` returned,
`none` being `NaN`. -/
def FilterPanel.onCountChange (tempFilters : Filters) (parsed : Option Int) : Filters :=
  { tempFilters with count :=
      match parsed with
      | some n => if n != 0 then n else 10
      | none => 10 }

/-- The gender `onChange` of `FilterPanel` (line 115): `e.target.value || null`. -/
def FilterPanel.onGenderChange (tempFilters : Filters) (value : String) : Filters :=
  { tempFilters with gender := if value != "" then some value else none }

/-- The style `onChange` of `FilterPanel` (line 131): `e.target.value || null`. -/
def FilterPanel.onStyleChange (tempFilters : Filters) (value : String) : Filters :=
  { tempFilters with style := if value != "" then some value else none }

/-- The handler `handleApplyFilters` (lines 95-97), with `onFiltersChange`
bound to `setFilters` (line 261). -/
def FilterPanel.handleApplyFilters (st : NameGenerator) (tempFilters : Filters) :
    NameGenerator :=
  { st with filters := tempFilters }

/-- The membership test `favorites.some(fav => fav.id === id)` (lines 224, 328). -/
def NameGenerator.isFavorite (st : NameGenerator) (id : String) : Bool :=
  st.favorites.any (fun fav => fav.id == id)

/-- The function `fetchFavorites` (lines 192-204). -/
def NameGenerator.fetchFavorites {σ : Type} (R : Remote σ) (user : JSValue)
    (showFavoritesOnly : Bool) (st : NameGenerator) (sv : σ) : Run NameGenerator σ :=
  if !user.truthy then ⟨st, sv, []⟩
  else
    match R.getFavorites sv with
    | (.ok data, sv1) =>
        ⟨{ st with favorites := data,
                   names := if showFavoritesOnly then data else st.names },
          sv1, [.request .getFavorites]⟩
    | (.error _, sv1) =>
        ⟨st, sv1, [.request .getFavorites, .consoleError "Error fetching favorites:"]⟩

/-- The function `generateNames` (lines 206-219). -/
def NameGenerator.generateNames {σ : Type} (R : Remote σ) (st : NameGenerator)
    (sv : σ) : Run NameGenerator σ :=
  let st1 := { st with loading := true, error := "" }
  match R.postGenerate sv st.filters with
  | (.ok data, sv1) =>
      ⟨{ st1 with names := data, loading := false }, sv1,
        [.request (.postGenerate st.filters)]⟩
  | (.error _, sv1) =>
      ⟨{ st1 with error := "Failed to generate names. Please try again.",
                  loading := false }, sv1,
        [.request (.postGenerate st.filters),
         .consoleError "Error generating names:"]⟩

/-- The function `toggleFavorite` (lines 221-236). The call `fetchFavorites()`
stands inside the `try` block after the awaited mutation, so it is reached
only when the mutation resolved; it is run to completion here. -/
def NameGenerator.toggleFavorite {σ : Type} (R : Remote σ) (user : JSValue)
    (showFavoritesOnly : Bool) (st : NameGenerator) (sv : σ) (nameId : String) :
    Run NameGenerator σ :=
  if !user.truthy then ⟨st, sv, []⟩
  else
    let isFavorite := st.favorites.any (fun fav => fav.id == nameId)
    let sent : Request := if isFavorite then .deleteRemove nameId else .postAdd nameId
    let answer := if isFavorite then R.deleteRemove sv nameId else R.postAdd sv nameId
    match answer with
    | (.ok _, sv1) =>
        let r := NameGenerator.fetchFavorites R user showFavoritesOnly st sv1
        ⟨r.state, r.server, .request sent :: r.trace⟩
    | (.error _, sv1) =>
        ⟨st, sv1, [.request sent, .consoleError "Error toggling favorite:"]⟩

/-- The function `shareList` (lines 238-249); `origin` is
`window.location.origin` and the answer of the request is
`response.data.share_token`. -/
def NameGenerator.shareList {σ : Type} (R : Remote σ) (origin : String)
    (user : JSValue) (st : NameGenerator) (sv : σ) : Run NameGenerator σ :=
  if !user.truthy || st.favorites.length == 0 then ⟨st, sv, []⟩
  else
    match R.postShare sv with
    | (.ok share_token, sv1) =>
        ⟨{ st with shareUrl := origin ++ "/shared/" ++ share_token,
                   showShareModal := true },
          sv1, [.request .postShare]⟩
    | (.error _, sv1) =>
        ⟨st, sv1, [.request .postShare, .consoleError "Error creating share link:"]⟩

/-- The effect on `[user, showFavoritesOnly]` (lines 181-190), its calls run
one after the other. -/
def NameGenerator.userEffect {σ : Type} (R : Remote σ) (user : JSValue)
    (showFavoritesOnly : Bool) (st : NameGenerator) (sv : σ) : Run NameGenerator σ :=
  let r1 : Run NameGenerator σ :=
    if user.truthy then NameGenerator.fetchFavorites R user showFavoritesOnly st sv
    else ⟨st, sv, []⟩
  let r2 : Run NameGenerator σ :=
    if showFavoritesOnly then
      NameGenerator.fetchFavorites R user showFavoritesOnly r1.state r1.server
    else NameGenerator.generateNames R r1.state r1.server
  ⟨r2.state, r2.server, r1.trace ++ r2.trace⟩

/-- Whether `NameCard` renders the favorite button (lines 43-54):
`showActions && user`, with `showActions` passed as
`!showFavoritesOnly || user` (line 329). -/
def NameCard.heartShown (showFavoritesOnly : Bool) (user : JSValue) : Bool :=
  (!showFavoritesOnly || user.truthy) && user.truthy

/-! ## `SharedFavorites` (SharedFavorites.js) -/

/-- The `useState` cells of `SharedFavorites` (lines 77-79). -/
structure SharedFavorites where
  names : List Name
  loading : Bool
  error : String
  deriving DecidableEq

/-- The message shown for an unknown share token (line 95). -/
def sharedNotFoundMessage : String :=
  "This shared favorites list could not be found. It may have been deleted or the link may be incorrect."

/-- The message shown for every other failure (line 97). -/
def sharedGenericMessage : String :=
  "Failed to load shared favorites. Please try again later."

/-- The test `err.response?.status === 404` (line 94). -/
def AxiosError.isNotFound (err : AxiosError) : Bool :=
  match err.response with
  | some response => response.status == 404
  | none => false

/-- The function `fetchSharedNames` (lines 85-102); `shareToken` is the route
parameter. -/
def SharedFavorites.fetchSharedNames {σ : Type} (R : Remote σ) (shareToken : String)
    (st : SharedFavorites) (sv : σ) : Run SharedFavorites σ :=
  let st1 := { st with loading := true, error := "" }
  match R.getShared sv shareToken with
  | (.ok data, sv1) =>
      ⟨{ st1 with names := data, loading := false }, sv1,
        [.request (.getShared shareToken)]⟩
  | (.error err, sv1) =>
      if err.isNotFound then
        ⟨{ st1 with error := sharedNotFoundMessage, loading := false }, sv1,
          [.request (.getShared shareToken),
           .consoleError "Error fetching shared names:"]⟩
      else
        ⟨{ st1 with error := sharedGenericMessage, loading := false }, sv1,
          [.request (.getShared shareToken),
           .consoleError "Error fetching shared names:"]⟩

/-! ## Sample remotes -/

/-- A remote that is unreachable: every request fails with no response. -/
def offlineRemote : Remote Unit where
  getFavorites := fun sv => (.error ⟨none⟩, sv)
  postGenerate := fun sv _ => (.error ⟨none⟩, sv)
  postAdd := fun sv _ => (.error ⟨none⟩, sv)
  deleteRemove := fun sv _ => (.error ⟨none⟩, sv)
  postShare := fun sv => (.error ⟨none⟩, sv)
  getShared := fun sv _ => (.error ⟨none⟩, sv)

/-- Modelled from the spec: the remote favorites service, which is not among
the source files, over a fixed catalog of names; its state is the list of
favorites of the signed-in user. `GET /favorites` answers the stored list; add
stores the catalog name of that id unless one is stored already, and answers
404 for an id the catalog lacks; remove drops every stored name of that id;
generation answers the catalog; sharing answers a fixed token, under which the
stored favorites are found. -/
def memoryRemote (catalog : List Name) : Remote (List Name) where
  getFavorites := fun sv => (.ok sv, sv)
  postGenerate := fun sv _ => (.ok catalog, sv)
  postAdd := fun sv nameId =>
    match catalog.find? (fun n => n.id == nameId) with
    | some n =>
        if sv.any (fun fav => fav.id == nameId) then (.ok (), sv)
        else (.ok (), sv ++ [n])
    | none => (.error ⟨some ⟨404, some "Name not found"⟩⟩, sv)
  deleteRemove := fun sv nameId =>
    (.ok (), sv.filter (fun fav => fav.id != nameId))
  postShare := fun sv => (.ok "tok1", sv)
  getShared := fun sv shareToken =>
    if shareToken = "tok1" then (.ok sv, sv)
    else (.error ⟨some ⟨404, some "Shared list not found"⟩⟩, sv)

/-- A sample name. -/
def sampleName : Name :=
  { id := "n1", name := "Ada", gender := "girl", origin := "German",
    meaning := "noble", popularity_score := 72 }

/-- A storage whose persisted profile is not JSON. -/
def corruptStorage : Storage :=
  (Storage.empty.setItem "auth_token" "tok").setItem "user_data" "\x7bbad"

/-- A sample signed-in user. -/
def sampleUser : JSValue := .obj [("id", .str "u1"), ("email", .str "a@b.c")]

/-- The view of a signed-in user whose one favorite is the sample name: the
component after its first effect against a remote that stores that favorite. -/
def signedInView : NameGenerator :=
  (NameGenerator.userEffect (memoryRemote [sampleName]) sampleUser false
    NameGenerator.mount [sampleName]).state

/-- The view after the user typed 500 into the count field and applied the
filters. -/
def countEditedView : NameGenerator :=
  FilterPanel.handleApplyFilters NameGenerator.mount
    (FilterPanel.onCountChange NameGenerator.mount.filters (some 500))

/-! ## What the filter panel can hold (NameGenerator.js, lines 92-165) -/

/-- The `value` of each `<option>` of the gender `<select>` (lines 118-121). -/
def FilterPanel.genderOptions : List String := ["", "boy", "girl", "unisex"]

/-- The `value` of each `<option>` of the style `<select>` (lines 134-139). -/
def FilterPanel.styleOptions : List String :=
  ["", "traditional", "modern", "unique", "classic", "trendy"]

/-- What the user can do on the filter panel: pick an option of either
`<select>`, edit the count field, press Apply. -/
inductive PanelEvent where
  | selectGender (value : String)
  | selectStyle (value : String)
  | editCount (parsed : Option Int)
  | apply

/-- Whether the rendered controls can produce the event: a `<select>` hands
its `onChange` the value of one of its options. -/
def PanelEvent.offered : PanelEvent → Bool
  | .selectGender value => FilterPanel.genderOptions.contains value
  | .selectStyle value => FilterPanel.styleOptions.contains value
  | .editCount _ => true
  | .apply => true

/-- The panel together with the component that renders it: the `tempFilters`
cell of `FilterPanel` (line 93) and the cells of `NameGenerator`. -/
structure PanelView where
  tempFilters : Filters
  view : NameGenerator

/-- The first render: `useState(filters)` starts `tempFilters` at the filters
of the freshly mounted `NameGenerator`. -/
def PanelView.mount : PanelView :=
  ⟨NameGenerator.mount.filters, NameGenerator.mount⟩

/-- One panel event handled (lines 95-97, 115, 131, 152). -/
def PanelView.step (pv : PanelView) : PanelEvent → PanelView
  | .selectGender value =>
      { pv with tempFilters := FilterPanel.onGenderChange pv.tempFilters value }
  | .selectStyle value =>
      { pv with tempFilters := FilterPanel.onStyleChange pv.tempFilters value }
  | .editCount parsed =>
      { pv with tempFilters := FilterPanel.onCountChange pv.tempFilters parsed }
  | .apply =>
      { pv with view := FilterPanel.handleApplyFilters pv.view pv.tempFilters }

/-- A finite sequence of panel events, handled left to right. -/
def PanelView.run (pv : PanelView) (events : List PanelEvent) : PanelView :=
  events.foldl PanelView.step pv

/-- Whether a filter configuration has its gender and its style either unset
or among the enumerated values. -/
def Filters.listed (f : Filters) : Prop :=
  (∀ g, f.gender = some g → g ∈ ["boy", "girl", "unisex"]) ∧
  (∀ s, f.style = some s → s ∈ ["traditional", "modern", "unique", "classic", "trendy"])

/-! ## Popularity labels (NameGenerator.js 27-32, SharedFavorites.js 23-28) -/

/-- The object `getPopularityLevel` returns. -/
structure PopularityLevel where
  text : String
  color : String
  deriving DecidableEq

/-- The function `getPopularityLevel` of `NameCard` (NameGenerator.js, lines 27-32). -/
def NameCard.getPopularityLevel (score : Int) : PopularityLevel :=
  if score ≥ 80 then ⟨"Very Popular", "bg-green-100 text-green-800"⟩
  else if score ≥ 60 then ⟨"Popular", "bg-yellow-100 text-yellow-800"⟩
  else if score ≥ 40 then ⟨"Moderate", "bg-orange-100 text-orange-800"⟩
  else ⟨"Unique", "bg-red-100 text-red-800"⟩

/-- The function `getPopularityLevel` of `SharedNameCard` (SharedFavorites.js,
lines 23-28). -/
def SharedNameCard.getPopularityLevel (score : Int) : PopularityLevel :=
  if score ≥ 80 then ⟨"Very Popular", "bg-green-100 text-green-800"⟩
  else if score ≥ 60 then ⟨"Popular", "bg-yellow-100 text-yellow-800"⟩
  else if score ≥ 40 then ⟨"Moderate", "bg-orange-100 text-orange-800"⟩
  else ⟨"Unique", "bg-red-100 text-red-800"⟩

/-! ## Request interceptor (App.js, lines 24-31) -/

/-- An outgoing request config: its `headers` object, read by key, and `rest`,
which stands for every other field (url, method, data and so on). -/
structure RequestConfig (α : Type) where
  headers : String → Option String
  rest : α

/-- The request interceptor (App.js, lines 25-31). -/
def requestInterceptor {α : Type} (localStorage : Storage) (config : RequestConfig α) :
    RequestConfig α :=
  let token := localStorage.getItem "auth_token"
  if strTruthy token then
    { config with headers := fun k =>
        if k = "Authorization" then some ("Bearer " ++ token.getD "")
        else config.headers k }
  else config

/-- A storage that holds the token `tok` and nothing else. -/
def tokenStorage : Storage := Storage.empty.setItem "auth_token" "tok"

/-- A sample request config with one header. -/
def sampleConfig : RequestConfig String :=
  { headers := fun k => if k = "Accept" then some "application/json" else none,
    rest := "GET /api/favorites" }

/-! ## `AuthPage` (AuthPage.js) -/

/-- The `useState` cells of `AuthPage` (lines 15-19). -/
structure AuthPage where
  email : String
  password : String
  loading : Bool
  error : String
  success : String
  deriving DecidableEq

/-- The `length` of a JavaScript string: the number of UTF-16 code units, two
for a character outside the basic plane. -/
def jsLength (s : String) : Nat :=
  (s.toList.map (fun c => if c.toNat ≥ 65536 then 2 else 1)).sum

/-- The `response.data` of a successful authentication request; only a login
answer is read. -/
structure AuthResponse where
  access_token : String
  user : JSValue

/-- The authentication service as the client sees it: `post` answers
`axios.post` on the endpoint with the body `{email, password}`. -/
structure AuthRemote (σ : Type) where
  post : σ → String → String → String → Except AxiosError AuthResponse × σ

/-- Outcome of `handleSubmit` run to completion: the page cells, the session
store, the server state and what was sent, logged and navigated to. -/
structure AuthRun (σ : Type) where
  page : AuthPage
  auth : AuthProvider
  server : σ
  trace : List Effect

/-- The expression `err.response?.data?.detail || fallback` (lines 64-65). -/
def AxiosError.detailOr (err : AxiosError) (fallback : String) : String :=
  match err.response with
  | some response =>
      match response.detail with
      | some detail => if detail != "" then detail else fallback
      | none => fallback
  | none => fallback

/-- The function `handleSubmit` (lines 29-70). -/
def AuthPage.handleSubmit {σ : Type} (JSON_stringify : JSValue → String)
    (R : AuthRemote σ) (isLogin : Bool) (p : AuthPage) (a : AuthProvider) (sv : σ) :
    AuthRun σ :=
  if p.email == "" || p.password == "" then
    ⟨{ p with error := "Please fill in all fields" }, a, sv, []⟩
  else if jsLength p.password < 6 then
    ⟨{ p with error := "Password must be at least 6 characters" }, a, sv, []⟩
  else
    let p1 := { p with loading := true, error := "", success := "" }
    let endpoint := if isLogin then "/auth/login" else "/auth/register"
    match R.post sv endpoint p.email p.password with
    | (.ok response, sv1) =>
        if isLogin then
          ⟨{ p1 with loading := false },
            a.login JSON_stringify response.access_token response.user, sv1,
            [.request (.postAuth endpoint p.email p.password), .navigate "/"]⟩
        else
          ⟨{ p1 with success := "Account created successfully! You can now log in.",
                     email := "", password := "", loading := false },
            a, sv1, [.request (.postAuth endpoint p.email p.password)]⟩
    | (.error err, sv1) =>
        ⟨{ p1 with
            error := err.detailOr (if isLogin then "Login failed" else "Registration failed"),
            loading := false },
          a, sv1,
          [.request (.postAuth endpoint p.email p.password), .consoleError "Auth error:"]⟩

/-- An authentication service that rejects every request with status 401 and
the detail `Invalid credentials`. -/
def rejectingAuth : AuthRemote Unit where
  post := fun sv _ _ _ => (.error ⟨some ⟨401, some "Invalid credentials"⟩⟩, sv)

/-- A page with a filled form. -/
def filledPage : AuthPage :=
  { email := "a@b.c", password := "secret1", loading := false, error := "", success := "" }

/-- A page whose password is five characters long. -/
def shortPasswordPage : AuthPage :=
  { email := "a@b.c", password := "abcde", loading := false, error := "", success := "" }

/-! ## Session store -/

/-- C3, as stated, fails: with a token stored and the profile text `{bad`,
which `JSON.parse` rejects, the startup restore step lets the `SyntaxError`
escape and leaves `loading` true. -/
theorem restore_corrupt_profile_throws :
    corruptStorage.getItem "auth_token" = some "tok" ∧
    corruptStorage.getItem "user_data" = some "\x7bbad" ∧
    jsonParseTable "\x7bbad" = none ∧
    ((AuthProvider.mount corruptStorage).restore jsonParseTable).thrown
      = some "SyntaxError" ∧
    ((AuthProvider.mount corruptStorage).restore jsonParseTable).state.loading
      = true := by
  refine ⟨by decide, by decide, by simp [jsonParseTable], ?_, ?_⟩ <;>
    simp [AuthProvider.restore, AuthProvider.mount, corruptStorage, Storage.getItem,
      Storage.setItem, strTruthy, jsonParseTable]

/-- C3, amended: at startup, with `auth_token` and `user_data` stored and the
profile text rejected by `JSON.parse`, the restore step throws when both
strings are non-empty, leaving `user` null and `loading` true; when one of
them is empty the parse is skipped and the step completes with `user` null and
`loading` false. -/
theorem restore_unparsable_profile (JSON_parse : String → Option JSValue)
    (storage : Storage) (token userData : String)
    (htoken : storage.getItem "auth_token" = some token)
    (hdata : storage.getItem "user_data" = some userData)
    (hbad : JSON_parse userData = none) :
    (token ≠ "" → userData ≠ "" →
      (AuthProvider.mount storage).restore JSON_parse
        = ⟨⟨storage, .null, true⟩, some "SyntaxError"⟩) ∧
    ((token = "" ∨ userData = "") →
      (AuthProvider.mount storage).restore JSON_parse
        = ⟨⟨storage, .null, false⟩, none⟩) := by
  constructor
  · intro h1 h2
    simp [AuthProvider.restore, AuthProvider.mount, htoken, hdata, strTruthy, h1, h2, hbad]
  · intro h
    rcases h with h | h <;>
      simp [AuthProvider.restore, AuthProvider.mount, htoken, hdata, strTruthy, h]

/-- The amended C3 at the storage holding the token `tok` and the text `{bad`. -/
theorem restore_unparsable_profile_witness :
    (AuthProvider.mount corruptStorage).restore jsonParseTable
      = ⟨⟨corruptStorage, .null, true⟩, some "SyntaxError"⟩ :=
  (restore_unparsable_profile jsonParseTable corruptStorage "tok" "\x7bbad"
    (by decide) (by decide) (by simp [jsonParseTable])).1 (by decide) (by decide)

/-- C5: for a non-empty credential and a profile object that `JSON.stringify`
and `JSON.parse` carry there and back, `login` followed by a fresh start and
the restore step over the same storage gives an active session whose user is
that profile. -/
theorem login_then_restore (JSON_parse : String → Option JSValue)
    (JSON_stringify : JSValue → String) (a : AuthProvider) (token : String)
    (profile : List (String × JSValue))
    (htoken : token ≠ "")
    (htext : JSON_stringify (.obj profile) ≠ "")
    (hround : JSON_parse (JSON_stringify (.obj profile)) = some (.obj profile)) :
    (AuthProvider.mount (a.login JSON_stringify token (.obj profile)).localStorage).restore
        JSON_parse
      = ⟨⟨(a.login JSON_stringify token (.obj profile)).localStorage, .obj profile, false⟩,
          none⟩ ∧
    (JSValue.obj profile).truthy = true := by
  refine ⟨?_, rfl⟩
  simp [AuthProvider.restore, AuthProvider.mount, AuthProvider.login, Storage.getItem,
    Storage.setItem, strTruthy, htoken, htext, hround]

/-- C5 at the token `tok` and the profile with id `u1` and email `a@b.c`. -/
theorem login_then_restore_witness :
    (AuthProvider.mount
        ((AuthProvider.mount Storage.empty).login jsonStringifyTable "tok"
          (.obj [("id", .str "u1"), ("email", .str "a@b.c")])).localStorage).restore
        jsonParseTable
      = ⟨⟨((AuthProvider.mount Storage.empty).login jsonStringifyTable "tok"
            (.obj [("id", .str "u1"), ("email", .str "a@b.c")])).localStorage,
          .obj [("id", .str "u1"), ("email", .str "a@b.c")], false⟩, none⟩ ∧
    (JSValue.obj [("id", .str "u1"), ("email", .str "a@b.c")]).truthy = true :=
  login_then_restore jsonParseTable jsonStringifyTable (AuthProvider.mount Storage.empty)
    "tok" [("id", .str "u1"), ("email", .str "a@b.c")] (by decide)
    (by simp [jsonStringifyTable]) (by simp [jsonStringifyTable, jsonParseTable])

/-- Running a sequence extended by one call is one more step. -/
theorem AuthProvider.run_snoc (JSON_stringify : JSValue → String) (a : AuthProvider)
    (calls : List AuthCall) (c : AuthCall) :
    a.run JSON_stringify (calls ++ [c])
      = (a.run JSON_stringify calls).step JSON_stringify c := by
  simp [AuthProvider.run, List.foldl_append]

/-- C6: from empty storage and no session, after every finite sequence of
`login` and `logout` calls the key `auth_token` is present exactly when
`user_data` is, and `user` is non-null exactly when both are present. -/
theorem session_pairing (JSON_stringify : JSValue → String) (calls : List AuthCall) :
    (((AuthProvider.mount Storage.empty).run JSON_stringify calls).localStorage.getItem
        "auth_token" ≠ none ↔
      ((AuthProvider.mount Storage.empty).run JSON_stringify calls).localStorage.getItem
        "user_data" ≠ none) ∧
    (((AuthProvider.mount Storage.empty).run JSON_stringify calls).user ≠ JSValue.null ↔
      (((AuthProvider.mount Storage.empty).run JSON_stringify calls).localStorage.getItem
          "auth_token" ≠ none ∧
        ((AuthProvider.mount Storage.empty).run JSON_stringify calls).localStorage.getItem
          "user_data" ≠ none)) := by
  induction calls using List.reverseRecOn with
  | nil =>
    simp [AuthProvider.run, AuthProvider.mount, Storage.empty, Storage.getItem]
  | append_singleton calls c _ =>
    rw [AuthProvider.run_snoc]
    cases c with
    | login token profile =>
      simp [AuthProvider.step, AuthProvider.login, Storage.getItem, Storage.setItem]
    | logout =>
      simp [AuthProvider.step, AuthProvider.logout, Storage.getItem, Storage.removeItem]

/-- C7: from every state `logout` leaves both persisted keys absent and `user`
null, and a second `logout` changes nothing. -/
theorem logout_clears (a : AuthProvider) :
    a.logout.localStorage.getItem "auth_token" = none ∧
    a.logout.localStorage.getItem "user_data" = none ∧
    a.logout.user = JSValue.null ∧
    a.logout.logout = a.logout := by
  refine ⟨?_, ?_, rfl, ?_⟩
  · simp [AuthProvider.logout, Storage.getItem, Storage.removeItem]
  · simp [AuthProvider.logout, Storage.getItem, Storage.removeItem]
  · simp only [AuthProvider.logout, Storage.removeItem]
    congr 2
    funext j
    by_cases h1 : j = "user_data" <;> by_cases h2 : j = "auth_token" <;> simp [h1, h2]

/-! ## Favorites coordinator -/

/-- C1, as stated, fails: with a signed-in user and an unreachable remote,
`toggleFavorite` sends the add request, logs the failure and stops; no
`GET /favorites` is sent. -/
theorem toggle_failed_mutation_skips_refresh :
    sampleUser.truthy = true ∧
    (NameGenerator.toggleFavorite offlineRemote sampleUser false NameGenerator.mount ()
        "n1").trace
      = [.request (.postAdd "n1"), .consoleError "Error toggling favorite:"] ∧
    Effect.request .getFavorites ∉
      (NameGenerator.toggleFavorite offlineRemote sampleUser false NameGenerator.mount ()
        "n1").trace := by
  decide

/-- C1, amended: with a signed-in user `toggleFavorite` first sends the inverse
mutation (remove when the id is in `favorites`, add otherwise); when the
mutation succeeds it then runs `fetchFavorites`, whose first act is
`GET /favorites`; when the mutation fails it logs the error, sends nothing
more and leaves the state as it was. -/
theorem toggleFavorite_refresh_on_success {σ : Type} (R : Remote σ) (user : JSValue)
    (showFavoritesOnly : Bool) (st : NameGenerator) (sv : σ) (nameId : String)
    (huser : user.truthy = true) :
    (∀ u sv1,
      (if st.isFavorite nameId then R.deleteRemove sv nameId else R.postAdd sv nameId)
          = (.ok u, sv1) →
      (NameGenerator.toggleFavorite R user showFavoritesOnly st sv nameId).trace
          = .request (if st.isFavorite nameId then .deleteRemove nameId else .postAdd nameId)
            :: (NameGenerator.fetchFavorites R user showFavoritesOnly st sv1).trace ∧
      (NameGenerator.toggleFavorite R user showFavoritesOnly st sv nameId).state
          = (NameGenerator.fetchFavorites R user showFavoritesOnly st sv1).state ∧
      (NameGenerator.fetchFavorites R user showFavoritesOnly st sv1).trace.head?
          = some (.request .getFavorites)) ∧
    (∀ err sv1,
      (if st.isFavorite nameId then R.deleteRemove sv nameId else R.postAdd sv nameId)
          = (.error err, sv1) →
      (NameGenerator.toggleFavorite R user showFavoritesOnly st sv nameId).trace
          = [.request (if st.isFavorite nameId then .deleteRemove nameId else .postAdd nameId),
             .consoleError "Error toggling favorite:"] ∧
      (NameGenerator.toggleFavorite R user showFavoritesOnly st sv nameId).state = st) := by
  constructor
  · intro u sv1 h
    have hfetch : (NameGenerator.fetchFavorites R user showFavoritesOnly st sv1).trace.head?
        = some (.request .getFavorites) := by
      unfold NameGenerator.fetchFavorites
      simp only [huser, Bool.not_true, Bool.false_eq_true, if_false]
      split <;> rfl
    refine ⟨?_, ?_, hfetch⟩ <;>
    · unfold NameGenerator.toggleFavorite
      simp only [NameGenerator.isFavorite] at h
      simp only [huser, Bool.not_true, Bool.false_eq_true, if_false, h,
        NameGenerator.isFavorite]
  · intro err sv1 h
    constructor <;>
    · unfold NameGenerator.toggleFavorite
      simp only [NameGenerator.isFavorite] at h
      simp only [huser, Bool.not_true, Bool.false_eq_true, if_false, h,
        NameGenerator.isFavorite]

/-- The amended C1 at a first add of `n1` that the remote accepts. -/
theorem toggleFavorite_refresh_on_success_witness :
    (NameGenerator.toggleFavorite (memoryRemote [sampleName]) sampleUser false
        NameGenerator.mount [] "n1").trace
      = .request (.postAdd "n1")
        :: (NameGenerator.fetchFavorites (memoryRemote [sampleName]) sampleUser false
              NameGenerator.mount [sampleName]).trace ∧
    (NameGenerator.toggleFavorite (memoryRemote [sampleName]) sampleUser false
        NameGenerator.mount [] "n1").state
      = (NameGenerator.fetchFavorites (memoryRemote [sampleName]) sampleUser false
            NameGenerator.mount [sampleName]).state ∧
    (NameGenerator.fetchFavorites (memoryRemote [sampleName]) sampleUser false
        NameGenerator.mount [sampleName]).trace.head?
      = some (.request .getFavorites) :=
  (toggleFavorite_refresh_on_success (memoryRemote [sampleName]) sampleUser false
    NameGenerator.mount [] "n1" (by decide)).1 () [sampleName] rfl

/-- C2, as stated, fails: after the user types 500 into the count field and
applies the filters, `generateNames` posts the count 500, which is above 50. -/
theorem generateNames_sends_unclamped_count :
    countEditedView.filters.count = 500 ∧
    (NameGenerator.generateNames (memoryRemote [sampleName]) countEditedView []).trace
      = [.request (.postGenerate { gender := none, count := 500, style := none })] ∧
    ¬ ((1 : Int) ≤ 500 ∧ (500 : Int) ≤ 50) := by
  decide

/-- C2, amended: `generateNames` posts the held filter configuration unchanged,
so the count sent is the count held; the count held after a count edit and
Apply is `parseInt(value) || 10`, that is 10 when `parseInt` gave `NaN` or 0
and the parsed integer otherwise, with no clamp to the range 1 to 50. -/
theorem generateNames_sends_held_filters {σ : Type} (R : Remote σ) (st : NameGenerator)
    (sv : σ) (tempFilters : Filters) (n : Int) :
    (NameGenerator.generateNames R st sv).trace.head?
      = some (.request (.postGenerate st.filters)) ∧
    (FilterPanel.handleApplyFilters st
        (FilterPanel.onCountChange tempFilters none)).filters.count = 10 ∧
    (FilterPanel.handleApplyFilters st
        (FilterPanel.onCountChange tempFilters (some 0))).filters.count = 10 ∧
    (n ≠ 0 →
      (FilterPanel.handleApplyFilters st
          (FilterPanel.onCountChange tempFilters (some n))).filters.count = n) ∧
    NameGenerator.mount.filters.count = 10 := by
  refine ⟨?_, rfl, rfl, ?_, rfl⟩
  · unfold NameGenerator.generateNames
    split <;> rfl
  · intro hn
    simp [FilterPanel.handleApplyFilters, FilterPanel.onCountChange, hn]

/-- The amended C2 at the typed count -5, which is held as -5. -/
theorem generateNames_sends_held_filters_witness :
    (FilterPanel.handleApplyFilters NameGenerator.mount
        (FilterPanel.onCountChange NameGenerator.mount.filters (some (-5)))).filters.count
      = -5 :=
  (generateNames_sends_held_filters offlineRemote NameGenerator.mount ()
    NameGenerator.mount.filters (-5)).2.2.2.1 (by decide)

/-- The function `generateNames` never writes `favorites`. -/
theorem NameGenerator.generateNames_favorites {σ : Type} (R : Remote σ)
    (st : NameGenerator) (sv : σ) :
    (NameGenerator.generateNames R st sv).state.favorites = st.favorites := by
  unfold NameGenerator.generateNames
  split <;> rfl

/-- C8, as stated, fails: after `logout`, and after the component effect has
run again for the null user, the membership test still answers true for the
id that was a favorite before. -/
theorem favorites_survive_logout :
    signedInView.isFavorite "n1" = true ∧
    ((AuthProvider.mount Storage.empty).login jsonStringifyTable "tok"
        sampleUser).logout.user.truthy = false ∧
    (NameGenerator.userEffect (memoryRemote [sampleName])
        ((AuthProvider.mount Storage.empty).login jsonStringifyTable "tok"
          sampleUser).logout.user
        false signedInView [sampleName]).state.isFavorite "n1" = true := by
  decide

/-- C8, amended: after `logout`, `toggleFavorite` is a no-op for every id (no
request, no state change); the `favorites` list is not cleared, neither by
`logout` nor by the component effect that runs for the null user, so the
membership test answers what it answered before; the favorite button is not
rendered. -/
theorem logout_toggle_noop {σ : Type} (R : Remote σ) (a : AuthProvider)
    (showFavoritesOnly : Bool) (st : NameGenerator) (sv : σ) (nameId : String) :
    NameGenerator.toggleFavorite R a.logout.user showFavoritesOnly st sv nameId
      = ⟨st, sv, []⟩ ∧
    (NameGenerator.userEffect R a.logout.user showFavoritesOnly st sv).state.isFavorite
        nameId
      = st.isFavorite nameId ∧
    NameCard.heartShown showFavoritesOnly a.logout.user = false := by
  refine ⟨rfl, ?_, ?_⟩
  · cases showFavoritesOnly
    · simp [NameGenerator.userEffect, AuthProvider.logout, JSValue.truthy,
        NameGenerator.isFavorite, NameGenerator.generateNames_favorites]
    · rfl
  · simp [NameCard.heartShown, AuthProvider.logout, JSValue.truthy]

/-- C9: with a signed-in user and a remote that answers `GET /favorites` with
its stored list and applies add and remove of this id, two consecutive
`toggleFavorite` calls, each run to completion, leave the membership of the id
in `favorites` as it was before them. -/
theorem toggle_twice_membership {σ : Type} (R : Remote σ) (stored : σ → List Name)
    (user : JSValue) (showFavoritesOnly : Bool) (st : NameGenerator) (sv : σ)
    (nameId : String)
    (huser : user.truthy = true)
    (hget : ∀ s, R.getFavorites s = (.ok (stored s), s))
    (hadd : ∀ s, ∃ s1, R.postAdd s nameId = (.ok (), s1) ∧
      (stored s1).any (fun fav => fav.id == nameId) = true)
    (hremove : ∀ s, ∃ s1, R.deleteRemove s nameId = (.ok (), s1) ∧
      (stored s1).any (fun fav => fav.id == nameId) = false) :
    (NameGenerator.toggleFavorite R user showFavoritesOnly
        (NameGenerator.toggleFavorite R user showFavoritesOnly st sv nameId).state
        (NameGenerator.toggleFavorite R user showFavoritesOnly st sv nameId).server
        nameId).state.isFavorite nameId
      = st.isFavorite nameId := by
  have key : ∀ (t : NameGenerator) (s : σ),
      (NameGenerator.toggleFavorite R user showFavoritesOnly t s nameId).state.isFavorite
          nameId
        = !(t.isFavorite nameId) := by
    intro t s
    unfold NameGenerator.toggleFavorite NameGenerator.fetchFavorites
    simp only [huser, Bool.not_true, Bool.false_eq_true, if_false, NameGenerator.isFavorite]
    cases hfav : t.favorites.any (fun fav => fav.id == nameId)
    · obtain ⟨s1, h1, h2⟩ := hadd s
      simp [h1, hget, h2]
    · obtain ⟨s1, h1, h2⟩ := hremove s
      simp [h1, hget, h2]
  rw [key, key, Bool.not_not]

/-- The sample remote applies an add of `n1` from every state. -/
theorem memoryRemote_add (s : List Name) :
    ∃ s1, (memoryRemote [sampleName]).postAdd s "n1" = (.ok (), s1) ∧
      s1.any (fun fav => fav.id == "n1") = true := by
  by_cases h : s.any (fun fav => fav.id == "n1") = true
  · refine ⟨s, ?_, h⟩
    simp only [memoryRemote, sampleName, List.find?, beq_self_eq_true, h, if_true]
  · refine ⟨s ++ [sampleName], ?_, by simp [sampleName]⟩
    simp only [memoryRemote, sampleName, List.find?, beq_self_eq_true, h]
    rfl

/-- The sample remote applies a remove of `n1` from every state. -/
theorem memoryRemote_remove (s : List Name) :
    ∃ s1, (memoryRemote [sampleName]).deleteRemove s "n1" = (.ok (), s1) ∧
      s1.any (fun fav => fav.id == "n1") = false :=
  ⟨s.filter (fun fav => fav.id != "n1"), rfl, by simp [List.any_filter]⟩

/-- C9 at the sample remote and the view whose one favorite is `n1`. -/
theorem toggle_twice_membership_witness :
    (NameGenerator.toggleFavorite (memoryRemote [sampleName]) sampleUser false
        (NameGenerator.toggleFavorite (memoryRemote [sampleName]) sampleUser false
          signedInView [sampleName] "n1").state
        (NameGenerator.toggleFavorite (memoryRemote [sampleName]) sampleUser false
          signedInView [sampleName] "n1").server
        "n1").state.isFavorite "n1"
      = signedInView.isFavorite "n1" :=
  toggle_twice_membership (memoryRemote [sampleName]) id sampleUser false signedInView
    [sampleName] "n1" (by decide) (fun _ => rfl) memoryRemote_add memoryRemote_remove

/-- C10: `shareList` sends `POST /favorites/share` exactly when a user is
signed in and `favorites` is non-empty; otherwise it sends nothing and changes
no state; when the request succeeds with token `t`, `shareUrl` becomes
`origin + "/shared/" + t` and the modal is shown. -/
theorem shareList_guarded {σ : Type} (R : Remote σ) (origin : String) (user : JSValue)
    (st : NameGenerator) (sv : σ) :
    (Effect.request .postShare ∈ (NameGenerator.shareList R origin user st sv).trace ↔
      (user.truthy = true ∧ st.favorites ≠ [])) ∧
    (¬ (user.truthy = true ∧ st.favorites ≠ []) →
      NameGenerator.shareList R origin user st sv = ⟨st, sv, []⟩) ∧
    (user.truthy = true → st.favorites ≠ [] → ∀ t sv1, R.postShare sv = (.ok t, sv1) →
      (NameGenerator.shareList R origin user st sv).state
        = { st with shareUrl := origin ++ "/shared/" ++ t, showShareModal := true }) := by
  have hlen : (st.favorites.length == 0) = true ↔ st.favorites = [] := by
    simp [List.length_eq_zero]
  refine ⟨?_, ?_, ?_⟩
  · unfold NameGenerator.shareList
    by_cases hu : user.truthy = true <;> by_cases hf : st.favorites = []
    · simp [hu, hf]
    · have hl : (st.favorites.length == 0) = false := by
        simpa [List.length_eq_zero] using hf
      simp only [hu, hl, Bool.not_true, Bool.or_false, Bool.false_eq_true, if_false]
      split <;> simp [hf]
    · simp [hu, hf]
    · simp [hu, hf]
  · intro h
    unfold NameGenerator.shareList
    by_cases hu : user.truthy = true
    · have hf : st.favorites = [] := by
        by_contra hne
        exact h ⟨hu, hne⟩
      simp [hu, hf]
    · simp [hu]
  · intro hu hf t sv1 hpost
    have hl : (st.favorites.length == 0) = false := by
      simpa [List.length_eq_zero] using hf
    unfold NameGenerator.shareList
    simp only [hu, hl, Bool.not_true, Bool.or_false, Bool.false_eq_true, if_false, hpost]

/-- C10 at a signed-in user with one favorite and the answer `tok1`. -/
theorem shareList_guarded_witness :
    (NameGenerator.shareList (memoryRemote [sampleName]) "https://names.example"
        sampleUser signedInView [sampleName]).state
      = { signedInView with shareUrl := "https://names.example/shared/tok1",
                            showShareModal := true } :=
  (shareList_guarded (memoryRemote [sampleName]) "https://names.example" sampleUser
    signedInView [sampleName]).2.2 (by decide) (by decide) "tok1" [sampleName] rfl

/-! ## Share-link resolver -/

/-- C4: when the share-token lookup fails, the error shown is the not-found
message exactly when the failure carries a response of status 404, and the
generic message for every other failure; when it succeeds the error is empty
and `names` is the response body. -/
theorem fetchSharedNames_messages {σ : Type} (R : Remote σ) (shareToken : String)
    (st : SharedFavorites) (sv : σ) :
    (∀ err sv1, R.getShared sv shareToken = (.error err, sv1) →
      ((SharedFavorites.fetchSharedNames R shareToken st sv).state.error
          = sharedNotFoundMessage ↔
        ∃ response, err.response = some response ∧ response.status = 404) ∧
      ((¬ ∃ response, err.response = some response ∧ response.status = 404) →
        (SharedFavorites.fetchSharedNames R shareToken st sv).state.error
          = sharedGenericMessage)) ∧
    (∀ data sv1, R.getShared sv shareToken = (.ok data, sv1) →
      (SharedFavorites.fetchSharedNames R shareToken st sv).state.error = "" ∧
      (SharedFavorites.fetchSharedNames R shareToken st sv).state.names = data) := by
  have hne : sharedGenericMessage ≠ sharedNotFoundMessage := by decide
  constructor
  · intro err sv1 h
    have h404 : err.isNotFound = true ↔
        ∃ response, err.response = some response ∧ response.status = 404 := by
      unfold AxiosError.isNotFound
      cases err.response <;> simp
    unfold SharedFavorites.fetchSharedNames
    simp only [h]
    by_cases hnf : err.isNotFound = true
    · simp [hnf, ← h404]
    · simp [hnf, ← h404, hne]
  · intro data sv1 h
    unfold SharedFavorites.fetchSharedNames
    simp [h]

/-- C4 at the unknown token `nope`, which the sample remote answers with 404. -/
theorem fetchSharedNames_messages_witness :
    ((SharedFavorites.fetchSharedNames (memoryRemote [sampleName]) "nope"
          ⟨[], true, ""⟩ [sampleName]).state.error
        = sharedNotFoundMessage ↔
      ∃ response, (AxiosError.mk (some ⟨404, some "Shared list not found"⟩)).response
        = some response ∧ response.status = 404) ∧
    ((¬ ∃ response, (AxiosError.mk (some ⟨404, some "Shared list not found"⟩)).response
        = some response ∧ response.status = 404) →
      (SharedFavorites.fetchSharedNames (memoryRemote [sampleName]) "nope"
          ⟨[], true, ""⟩ [sampleName]).state.error
        = sharedGenericMessage) :=
  (fetchSharedNames_messages (memoryRemote [sampleName]) "nope" ⟨[], true, ""⟩
    [sampleName]).1 ⟨some ⟨404, some "Shared list not found"⟩⟩ [sampleName] rfl

/-! ## Name catalog client -/

/-- C11: when the generation request fails, `generateNames` leaves `names` as
it was, sets the error to the generation-failed message and ends with
`loading` false; when it succeeds, `names` is the response body and the error
is empty. -/
theorem generateNames_outcome {σ : Type} (R : Remote σ) (st : NameGenerator) (sv : σ) :
    (∀ err sv1, R.postGenerate sv st.filters = (.error err, sv1) →
      (NameGenerator.generateNames R st sv).state.names = st.names ∧
      (NameGenerator.generateNames R st sv).state.error
        = "Failed to generate names. Please try again." ∧
      (NameGenerator.generateNames R st sv).state.loading = false) ∧
    (∀ data sv1, R.postGenerate sv st.filters = (.ok data, sv1) →
      (NameGenerator.generateNames R st sv).state.names = data ∧
      (NameGenerator.generateNames R st sv).state.error = "" ∧
      (NameGenerator.generateNames R st sv).state.loading = false) := by
  constructor
  · intro err sv1 h
    unfold NameGenerator.generateNames
    simp [h]
  · intro data sv1 h
    unfold NameGenerator.generateNames
    simp [h]

/-- C11 at the view of a signed-in user and an unreachable remote: the names
shown stay, the message is set. -/
theorem generateNames_outcome_witness :
    (NameGenerator.generateNames offlineRemote signedInView ()).state.names
      = signedInView.names ∧
    (NameGenerator.generateNames offlineRemote signedInView ()).state.error
      = "Failed to generate names. Please try again." ∧
    (NameGenerator.generateNames offlineRemote signedInView ()).state.loading = false :=
  (generateNames_outcome offlineRemote signedInView ()).1 ⟨none⟩ () rfl

/-- C13: with no signed-in user `fetchFavorites` sends nothing and changes
nothing; with a user and a successful answer `favorites` becomes the response
list, and `names` too in favorites-only mode (and stays otherwise); with a user
and a failed request the state is left as it was. -/
theorem fetchFavorites_outcome {σ : Type} (R : Remote σ) (user : JSValue)
    (showFavoritesOnly : Bool) (st : NameGenerator) (sv : σ) :
    (user.truthy = false →
      NameGenerator.fetchFavorites R user showFavoritesOnly st sv = ⟨st, sv, []⟩) ∧
    (user.truthy = true → ∀ data sv1, R.getFavorites sv = (.ok data, sv1) →
      (NameGenerator.fetchFavorites R user showFavoritesOnly st sv).state.favorites = data ∧
      (NameGenerator.fetchFavorites R user showFavoritesOnly st sv).state.names
        = (if showFavoritesOnly then data else st.names)) ∧
    (user.truthy = true → ∀ err sv1, R.getFavorites sv = (.error err, sv1) →
      (NameGenerator.fetchFavorites R user showFavoritesOnly st sv).state = st) := by
  refine ⟨?_, ?_, ?_⟩
  · intro hu
    simp [NameGenerator.fetchFavorites, hu]
  · intro hu data sv1 h
    simp [NameGenerator.fetchFavorites, hu, h]
  · intro hu err sv1 h
    simp [NameGenerator.fetchFavorites, hu, h]

/-- C13 at a signed-in user in favorites-only mode whose remote stores one
favorite. -/
theorem fetchFavorites_outcome_witness :
    (NameGenerator.fetchFavorites (memoryRemote [sampleName]) sampleUser true
        NameGenerator.mount [sampleName]).state.favorites = [sampleName] ∧
    (NameGenerator.fetchFavorites (memoryRemote [sampleName]) sampleUser true
        NameGenerator.mount [sampleName]).state.names
      = (if true then [sampleName] else NameGenerator.mount.names) :=
  (fetchFavorites_outcome (memoryRemote [sampleName]) sampleUser true NameGenerator.mount
    [sampleName]).2.1 (by decide) [sampleName] [sampleName] rfl

/-- The gender handler keeps a listed configuration listed when it is handed
an option value. -/
theorem FilterPanel.onGenderChange_listed (f : Filters) (value : String)
    (hvalue : value ∈ FilterPanel.genderOptions) (hf : f.listed) :
    (FilterPanel.onGenderChange f value).listed := by
  refine ⟨?_, hf.2⟩
  intro g hg
  simp only [FilterPanel.genderOptions, List.mem_cons, List.mem_singleton,
    List.not_mem_nil, or_false] at hvalue
  rcases hvalue with h | h | h | h <;> subst h <;>
    simp [FilterPanel.onGenderChange] at hg <;> simp [← hg]

/-- The style handler keeps a listed configuration listed when it is handed an
option value. -/
theorem FilterPanel.onStyleChange_listed (f : Filters) (value : String)
    (hvalue : value ∈ FilterPanel.styleOptions) (hf : f.listed) :
    (FilterPanel.onStyleChange f value).listed := by
  refine ⟨hf.1, ?_⟩
  intro g hg
  simp only [FilterPanel.styleOptions, List.mem_cons, List.mem_singleton,
    List.not_mem_nil, or_false] at hvalue
  rcases hvalue with h | h | h | h | h | h <;> subst h <;>
    simp [FilterPanel.onStyleChange] at hg <;> simp [← hg]

/-- Offered panel events keep both the edited and the held configuration
listed. -/
theorem PanelView.run_listed (events : List PanelEvent) (pv : PanelView)
    (hoffered : ∀ e ∈ events, e.offered = true)
    (htemp : pv.tempFilters.listed) (hheld : pv.view.filters.listed) :
    (pv.run events).tempFilters.listed ∧ (pv.run events).view.filters.listed := by
  induction events generalizing pv with
  | nil => exact ⟨htemp, hheld⟩
  | cons e rest ih =>
    have he : e.offered = true := hoffered e (List.mem_cons_self e rest)
    have hrest : ∀ x ∈ rest, x.offered = true :=
      fun x hx => hoffered x (List.mem_cons_of_mem e hx)
    show ((pv.step e).run rest).tempFilters.listed ∧ ((pv.step e).run rest).view.filters.listed
    cases e with
    | selectGender value =>
      refine ih (pv.step (.selectGender value)) hrest ?_ hheld
      exact FilterPanel.onGenderChange_listed pv.tempFilters value
        (by simpa [PanelEvent.offered] using he) htemp
    | selectStyle value =>
      refine ih (pv.step (.selectStyle value)) hrest ?_ hheld
      exact FilterPanel.onStyleChange_listed pv.tempFilters value
        (by simpa [PanelEvent.offered] using he) htemp
    | editCount parsed =>
      exact ih (pv.step (.editCount parsed)) hrest htemp hheld
    | apply =>
      exact ih (pv.step .apply) hrest htemp htemp

/-- Running a sequence extended by two events is two more steps. -/
theorem PanelView.run_snoc2 (pv : PanelView) (events : List PanelEvent)
    (e1 e2 : PanelEvent) :
    pv.run (events ++ [e1, e2]) = ((pv.run events).step e1).step e2 := by
  simp [PanelView.run, List.foldl_append]

/-- C14: for every filter configuration the client can hold, that is every
configuration reached from the first render by option picks, count edits and
Apply, `generateNames` sends the request with the held configuration, whose
gender and style are each unset or one of the enumerated values; and an option
value outside the enumerated set, once picked and applied, is held, hence
dispatched, as unset (null). -/
theorem generateNames_enum_unset {σ : Type} (R : Remote σ) (sv : σ) (st : NameGenerator)
    (events : List PanelEvent)
    (hoffered : ∀ e ∈ events, e.offered = true)
    (hheld : st.filters = (PanelView.mount.run events).view.filters) :
    (NameGenerator.generateNames R st sv).trace.head?
      = some (.request (.postGenerate st.filters)) ∧
    (∀ g, st.filters.gender = some g → g ∈ ["boy", "girl", "unisex"]) ∧
    (∀ s, st.filters.style = some s →
      s ∈ ["traditional", "modern", "unique", "classic", "trendy"]) ∧
    (∀ value, value ∈ FilterPanel.genderOptions → value ∉ ["boy", "girl", "unisex"] →
      (NameGenerator.generateNames R
          (PanelView.mount.run (events ++ [.selectGender value, .apply])).view
          sv).trace.head?
        = some (.request (.postGenerate
            { (PanelView.mount.run events).tempFilters with gender := none }))) ∧
    (∀ value, value ∈ FilterPanel.styleOptions →
      value ∉ ["traditional", "modern", "unique", "classic", "trendy"] →
      (NameGenerator.generateNames R
          (PanelView.mount.run (events ++ [.selectStyle value, .apply])).view
          sv).trace.head?
        = some (.request (.postGenerate
            { (PanelView.mount.run events).tempFilters with style := none }))) := by
  have hsend : ∀ t : NameGenerator, (NameGenerator.generateNames R t sv).trace.head?
      = some (.request (.postGenerate t.filters)) := by
    intro t
    unfold NameGenerator.generateNames
    split <;> rfl
  have hmount : NameGenerator.mount.filters.listed := by
    constructor <;> intro g hg <;> simp [NameGenerator.mount] at hg
  have hlisted := (PanelView.run_listed events PanelView.mount hoffered hmount hmount).2
  rw [← hheld] at hlisted
  refine ⟨hsend st, hlisted.1, hlisted.2, ?_, ?_⟩
  · intro value hvalue hout
    have hempty : value = "" := by
      simp only [FilterPanel.genderOptions, List.mem_cons, List.mem_singleton,
        List.not_mem_nil, or_false] at hvalue hout
      tauto
    rw [hsend, PanelView.run_snoc2, hempty]
    rfl
  · intro value hvalue hout
    have hempty : value = "" := by
      simp only [FilterPanel.styleOptions, List.mem_cons, List.mem_singleton,
        List.not_mem_nil, or_false] at hvalue hout
      tauto
    rw [hsend, PanelView.run_snoc2, hempty]
    rfl

/-- C14 at the panel on which `girl` and `modern` were picked and applied:
picking the option with the empty value, which is outside the enumerated
genders, and applying makes `generateNames` post the gender as unset. -/
theorem generateNames_enum_unset_witness :
    (NameGenerator.generateNames (memoryRemote [sampleName])
        (PanelView.mount.run
          ([.selectGender "girl", .selectStyle "modern", .apply]
            ++ [.selectGender "", .apply])).view
        []).trace.head?
      = some (.request (.postGenerate
          { (PanelView.mount.run
              [.selectGender "girl", .selectStyle "modern", .apply]).tempFilters
            with gender := none })) :=
  (generateNames_enum_unset (memoryRemote [sampleName]) []
    (PanelView.mount.run [.selectGender "girl", .selectStyle "modern", .apply]).view
    [.selectGender "girl", .selectStyle "modern", .apply]
    (by decide) rfl).2.2.2.1 "" (by decide) (by decide)

/-! ## Popularity labels -/

/-- C16: `getPopularityLevel` answers for every integer score one of four
labels, `Very Popular` exactly from 80 up, `Popular` exactly from 60 to 79,
`Moderate` exactly from 40 to 59 and `Unique` exactly below 40; the copy in
`SharedNameCard` returns the same label and colour as the one in `NameCard`. -/
theorem getPopularityLevel_thresholds (score : Int) :
    ((NameCard.getPopularityLevel score).text = "Very Popular" ↔ score ≥ 80) ∧
    ((NameCard.getPopularityLevel score).text = "Popular" ↔ (60 ≤ score ∧ score < 80)) ∧
    ((NameCard.getPopularityLevel score).text = "Moderate" ↔ (40 ≤ score ∧ score < 60)) ∧
    ((NameCard.getPopularityLevel score).text = "Unique" ↔ score < 40) ∧
    (NameCard.getPopularityLevel score).text
      ∈ ["Very Popular", "Popular", "Moderate", "Unique"] ∧
    SharedNameCard.getPopularityLevel score = NameCard.getPopularityLevel score := by
  refine ⟨?_, ?_, ?_, ?_, ?_, rfl⟩ <;>
    unfold NameCard.getPopularityLevel <;>
    split_ifs <;> simp <;> omega

/-! ## Request interceptor -/

/-- C15: for every config and storage the interceptor sets the `Authorization`
header to `Bearer ` followed by the stored `auth_token` when a non-empty token
is stored, and otherwise returns the config as it came; in both cases every
other header and every other field is unchanged. -/
theorem requestInterceptor_bearer {α : Type} (localStorage : Storage)
    (config : RequestConfig α) :
    (∀ token, localStorage.getItem "auth_token" = some token → token ≠ "" →
      (requestInterceptor localStorage config).headers "Authorization"
        = some ("Bearer " ++ token)) ∧
    ((localStorage.getItem "auth_token" = none ∨
        localStorage.getItem "auth_token" = some "") →
      requestInterceptor localStorage config = config) ∧
    (∀ k, k ≠ "Authorization" →
      (requestInterceptor localStorage config).headers k = config.headers k) ∧
    (requestInterceptor localStorage config).rest = config.rest := by
  refine ⟨?_, ?_, ?_, ?_⟩
  · intro token h hne
    simp [requestInterceptor, h, strTruthy, hne]
  · intro h
    rcases h with h | h <;> simp [requestInterceptor, h, strTruthy]
  · intro k hk
    unfold requestInterceptor
    simp only
    split <;> simp [hk]
  · unfold requestInterceptor
    simp only
    split <;> rfl

/-- C15 at the storage holding the token `tok` and a config with one header. -/
theorem requestInterceptor_bearer_witness :
    (requestInterceptor tokenStorage sampleConfig).headers "Authorization"
      = some ("Bearer " ++ "tok") :=
  (requestInterceptor_bearer tokenStorage sampleConfig).1 "tok" (by decide) (by decide)

/-! ## Authentication page -/

/-- For a form that passes both checks `handleSubmit` is its request branch. -/
theorem AuthPage.handleSubmit_valid {σ : Type} (JSON_stringify : JSValue → String)
    (R : AuthRemote σ) (isLogin : Bool) (p : AuthPage) (a : AuthProvider) (sv : σ)
    (hemail : p.email ≠ "") (hpassword : p.password ≠ "")
    (hlength : 6 ≤ jsLength p.password) :
    AuthPage.handleSubmit JSON_stringify R isLogin p a sv
      = (match R.post sv (if isLogin then "/auth/login" else "/auth/register")
            p.email p.password with
        | (.ok response, sv1) =>
            if isLogin then
              ⟨{ p with loading := false, error := "", success := "" },
                a.login JSON_stringify response.access_token response.user, sv1,
                [.request (.postAuth (if isLogin then "/auth/login" else "/auth/register")
                    p.email p.password), .navigate "/"]⟩
            else
              ⟨{ p with success := "Account created successfully! You can now log in.",
                        email := "", password := "", loading := false, error := "" },
                a, sv1,
                [.request (.postAuth (if isLogin then "/auth/login" else "/auth/register")
                    p.email p.password)]⟩
        | (.error err, sv1) =>
            ⟨{ p with
                error := err.detailOr
                  (if isLogin then "Login failed" else "Registration failed"),
                loading := false, success := "" },
              a, sv1,
              [.request (.postAuth (if isLogin then "/auth/login" else "/auth/register")
                  p.email p.password), .consoleError "Auth error:"]⟩) := by
  have hguard : (p.email == "" || p.password == "") = false := by
    simp [hemail, hpassword]
  have hlen : ¬ jsLength p.password < 6 := by omega
  unfold AuthPage.handleSubmit
  simp only [hguard, hlen, Bool.false_eq_true, if_false]

/-- C12: `handleSubmit` sends a request exactly when the email is non-empty,
the password is non-empty and the password has at least 6 code units; with an
empty field it only sets the error `Please fill in all fields`, with both
filled and a shorter password it only sets the error
`Password must be at least 6 characters`; in both rejections nothing is sent
and `loading` is not written. -/
theorem handleSubmit_validation {σ : Type} (JSON_stringify : JSValue → String)
    (R : AuthRemote σ) (isLogin : Bool) (p : AuthPage) (a : AuthProvider) (sv : σ) :
    ((∃ r, Effect.request r ∈
        (AuthPage.handleSubmit JSON_stringify R isLogin p a sv).trace) ↔
      (p.email ≠ "" ∧ p.password ≠ "" ∧ 6 ≤ jsLength p.password)) ∧
    ((p.email = "" ∨ p.password = "") →
      AuthPage.handleSubmit JSON_stringify R isLogin p a sv
        = ⟨{ p with error := "Please fill in all fields" }, a, sv, []⟩) ∧
    (p.email ≠ "" → p.password ≠ "" → jsLength p.password < 6 →
      AuthPage.handleSubmit JSON_stringify R isLogin p a sv
        = ⟨{ p with error := "Password must be at least 6 characters" }, a, sv, []⟩) ∧
    (p.email ≠ "" → p.password ≠ "" → 6 ≤ jsLength p.password →
      (AuthPage.handleSubmit JSON_stringify R isLogin p a sv).trace.head?
        = some (.request (.postAuth (if isLogin then "/auth/login" else "/auth/register")
            p.email p.password))) := by
  have hempty : (p.email = "" ∨ p.password = "") →
      AuthPage.handleSubmit JSON_stringify R isLogin p a sv
        = ⟨{ p with error := "Please fill in all fields" }, a, sv, []⟩ := by
    intro h
    unfold AuthPage.handleSubmit
    rcases h with h | h <;> simp [h]
  have hshort : p.email ≠ "" → p.password ≠ "" → jsLength p.password < 6 →
      AuthPage.handleSubmit JSON_stringify R isLogin p a sv
        = ⟨{ p with error := "Password must be at least 6 characters" }, a, sv, []⟩ := by
    intro h1 h2 h3
    unfold AuthPage.handleSubmit
    simp [h1, h2, h3]
  have hsend : p.email ≠ "" → p.password ≠ "" → 6 ≤ jsLength p.password →
      (AuthPage.handleSubmit JSON_stringify R isLogin p a sv).trace.head?
        = some (.request (.postAuth (if isLogin then "/auth/login" else "/auth/register")
            p.email p.password)) := by
    intro h1 h2 h3
    rw [AuthPage.handleSubmit_valid JSON_stringify R isLogin p a sv h1 h2 h3]
    split
    · cases isLogin <;> rfl
    · rfl
  refine ⟨?_, hempty, hshort, hsend⟩
  constructor
  · rintro ⟨r, hr⟩
    by_contra hnot
    by_cases h1 : p.email = ""
    · rw [hempty (Or.inl h1)] at hr
      simp at hr
    · by_cases h2 : p.password = ""
      · rw [hempty (Or.inr h2)] at hr
        simp at hr
      · by_cases h3 : 6 ≤ jsLength p.password
        · exact hnot ⟨h1, h2, h3⟩
        · rw [hshort h1 h2 (by omega)] at hr
          simp at hr
  · rintro ⟨h1, h2, h3⟩
    have h := hsend h1 h2 h3
    refine ⟨_, List.mem_of_mem_head? h⟩

/-- C12 at a five-character password: the length message is set and nothing
is sent. -/
theorem handleSubmit_validation_witness :
    AuthPage.handleSubmit jsonStringifyTable rejectingAuth true shortPasswordPage
        (AuthProvider.mount Storage.empty) ()
      = ⟨{ shortPasswordPage with error := "Password must be at least 6 characters" },
          AuthProvider.mount Storage.empty, (), []⟩ :=
  (handleSubmit_validation jsonStringifyTable rejectingAuth true shortPasswordPage
    (AuthProvider.mount Storage.empty) ()).2.2.1 (by decide) (by decide) (by decide)

/-- C17: when the authentication request of a valid form fails, `handleSubmit`
leaves the session store as it was (no `login`), sets the error to the
non-empty `response.data.detail` when the failure carries one and otherwise to
`Login failed` or `Registration failed`, and ends with `loading` false; a
successful request ends with `loading` false too. -/
theorem handleSubmit_failure {σ : Type} (JSON_stringify : JSValue → String)
    (R : AuthRemote σ) (isLogin : Bool) (p : AuthPage) (a : AuthProvider) (sv : σ)
    (hemail : p.email ≠ "") (hpassword : p.password ≠ "")
    (hlength : 6 ≤ jsLength p.password) :
    (∀ err sv1,
      R.post sv (if isLogin then "/auth/login" else "/auth/register") p.email p.password
        = (.error err, sv1) →
      (AuthPage.handleSubmit JSON_stringify R isLogin p a sv).auth = a ∧
      (∀ response detail, err.response = some response →
        response.detail = some detail → detail ≠ "" →
        (AuthPage.handleSubmit JSON_stringify R isLogin p a sv).page.error = detail) ∧
      ((err.response = none ∨
          (∃ response, err.response = some response ∧
            (response.detail = none ∨ response.detail = some ""))) →
        (AuthPage.handleSubmit JSON_stringify R isLogin p a sv).page.error
          = (if isLogin then "Login failed" else "Registration failed")) ∧
      (AuthPage.handleSubmit JSON_stringify R isLogin p a sv).page.loading = false) ∧
    (∀ response sv1,
      R.post sv (if isLogin then "/auth/login" else "/auth/register") p.email p.password
        = (.ok response, sv1) →
      (AuthPage.handleSubmit JSON_stringify R isLogin p a sv).page.loading = false) := by
  constructor
  · intro err sv1 h
    have hrun : AuthPage.handleSubmit JSON_stringify R isLogin p a sv
        = ⟨{ p with loading := false, success := "",
                    error := err.detailOr
                      (if isLogin then "Login failed" else "Registration failed") },
            a, sv1,
            [.request (.postAuth (if isLogin then "/auth/login" else "/auth/register")
                p.email p.password), .consoleError "Auth error:"]⟩ := by
      rw [AuthPage.handleSubmit_valid JSON_stringify R isLogin p a sv hemail hpassword
        hlength, h]
    rw [hrun]
    refine ⟨rfl, ?_, ?_, rfl⟩
    · intro response detail h1 h2 h3
      simp [AxiosError.detailOr, h1, h2, h3]
    · intro hnone
      rcases hnone with h1 | ⟨response, h1, h2 | h2⟩
      · simp [AxiosError.detailOr, h1]
      · simp [AxiosError.detailOr, h1, h2]
      · simp [AxiosError.detailOr, h1, h2]
  · intro response sv1 h
    rw [AuthPage.handleSubmit_valid JSON_stringify R isLogin p a sv hemail hpassword
      hlength, h]
    cases isLogin <;> rfl

/-- C17 at a login attempt that the service rejects with status 401 and the
detail `Invalid credentials`. -/
theorem handleSubmit_failure_witness :
    (AuthPage.handleSubmit jsonStringifyTable rejectingAuth true filledPage
        (AuthProvider.mount Storage.empty) ()).auth = AuthProvider.mount Storage.empty ∧
    (∀ response detail,
      (AxiosError.mk (some ⟨401, some "Invalid credentials"⟩)).response = some response →
      response.detail = some detail → detail ≠ "" →
      (AuthPage.handleSubmit jsonStringifyTable rejectingAuth true filledPage
        (AuthProvider.mount Storage.empty) ()).page.error = detail) ∧
    (((AxiosError.mk (some ⟨401, some "Invalid credentials"⟩)).response = none ∨
        (∃ response,
          (AxiosError.mk (some ⟨401, some "Invalid credentials"⟩)).response = some response ∧
          (response.detail = none ∨ response.detail = some ""))) →
      (AuthPage.handleSubmit jsonStringifyTable rejectingAuth true filledPage
        (AuthProvider.mount Storage.empty) ()).page.error
        = (if true then "Login failed" else "Registration failed")) ∧
    (AuthPage.handleSubmit jsonStringifyTable rejectingAuth true filledPage
        (AuthProvider.mount Storage.empty) ()).page.loading = false :=
  (handleSubmit_failure jsonStringifyTable rejectingAuth true filledPage
    (AuthProvider.mount Storage.empty) () (by decide) (by decide) (by decide)).1
    ⟨some ⟨401, some "Invalid credentials"⟩⟩ () rfl

end NameBloom
